import Mathlib

/-!
Verification of the battery-telemetry and uptime-accounting core of InkyPi
(`src/utils/battery_utils.py` and `src/utils/uptime_tracker.py`), as a shallow
embedding in Lean 4.

Python dictionaries returned by `get_metrics` are modelled as association
lists of string keys and JSON-style values; machine floats that only ever hold
exact decimal quantities are modelled as rationals; exceptions are modelled
with `Except`; the sysfs / I2C / filesystem environment that each call reads
is passed in explicitly as data.
-/

namespace InkyPi

/-- A JSON-style value stored in a metrics dictionary. -/
inductive JVal where
  | bool (b : Bool)
  | str (s : String)
  | num (q : ℚ)
  deriving Repr, DecidableEq

/-- A Python dict with string keys, in insertion order. -/
abbrev Dict := List (String × JVal)

/-- `d[k] = v` on a Python dict: replace the value if the key is present,
append otherwise. -/
def dset (d : Dict) (k : String) (v : JVal) : Dict :=
  match d with
  | [] => [(k, v)]
  | (k', v') :: rest => if k' = k then (k', v) :: rest else (k', v') :: dset rest k v

/-- `d.get(k)` on a Python dict. -/
def dget (d : Dict) (k : String) : Option JVal :=
  match d with
  | [] => none
  | (k', v') :: rest => if k' = k then some v' else dget rest k

/-- `k in d` on a Python dict. -/
def dmem (d : Dict) (k : String) : Bool :=
  match d with
  | [] => false
  | (k', _) :: rest => k' = k || dmem rest k

theorem dget_dset_self (d : Dict) (k : String) (v : JVal) :
    dget (dset d k v) k = some v := by
  induction d with
  | nil => simp [dset, dget]
  | cons hd tl ih =>
    obtain ⟨k', v'⟩ := hd
    by_cases h : k' = k <;> simp [dset, dget, h, ih]

theorem dget_dset_ne (d : Dict) (k k' : String) (v : JVal) (h : k ≠ k') :
    dget (dset d k v) k' = dget d k' := by
  induction d with
  | nil => simp [dset, dget, h]
  | cons hd tl ih =>
    obtain ⟨k₀, v₀⟩ := hd
    by_cases h₀ : k₀ = k
    · subst h₀
      simp [dset, dget, h]
    · by_cases h₁ : k₀ = k' <;> simp [dset, dget, h₀, h₁, Ne.symm h, ih]

/-! ## Power-supply backend (`PowerSupplyBackend.get_metrics`)

`_read_sysfs_file` returns the stripped file text, or `None` when the file is
missing or unreadable; we model the device directory as the six optional
strings that the read can produce.  Python `float(...)` is abstracted as a
parameter `parse : String → Option ℚ` (`none` models the `ValueError` branch,
which the code swallows field by field). -/

/-- The sysfs attribute files of the bound power-supply device, as
`_read_sysfs_file` delivers them (`none` = missing/unreadable). -/
structure SysfsEnv where
  capacity : Option String
  voltage_now : Option String
  current_now : Option String
  power_now : Option String
  status : Option String
  temp : Option String
  deriving Repr, DecidableEq

/-- `if s: float(s)` applied to an optional sysfs string: Python truthiness
skips `None` and the empty string, then the parse may fail. -/
def readNum (parse : String → Option ℚ) (o : Option String) : Option ℚ :=
  match o with
  | none => none
  | some s => if s = "" then none else parse s

/-- `PowerSupplyBackend.get_metrics`: each attribute that is present and
parses contributes one converted field; finally power is derived from voltage
and current when `power_now` yielded nothing.  This read never raises. -/
def powerSupplyMetrics (parse : String → Option ℚ) (env : SysfsEnv) : Dict :=
  let m : Dict := []
  let m := match readNum parse env.capacity with
    | some q => dset m "percentage" (.num q)
    | none => m
  let m := match readNum parse env.voltage_now with
    | some q => dset m "voltage" (.num (q / 1000000))
    | none => m
  let m := match readNum parse env.current_now with
    | some q => dset m "current" (.num (q / 1000))
    | none => m
  let m := match readNum parse env.power_now with
    | some q => dset m "power" (.num (q / 1000000))
    | none => m
  let m := match env.status with
    | some s => if s = "" then m else dset m "status" (.str s)
    | none => m
  let m := match readNum parse env.temp with
    | some q => dset m "temperature" (.num (q / 10))
    | none => m
  if ¬ dmem m "power" ∧ dmem m "voltage" ∧ dmem m "current" then
    match dget m "voltage", dget m "current" with
    | some (.num v), some (.num c) => dset m "power" (.num (v * c / 1000))
    | _, _ => m
  else m

/-! ## INA219 backend (`INA219Backend.get_metrics`)

The chip is modelled by the outcome of its three reads; a failed read models
the exception, which the method catches itself, keeping the fields gathered
before the failure.  This read, too, never raises to the monitor. -/

/-- Outcomes of the three INA219 chip reads issued by one `get_metrics` call
(volts, milliamps, milliwatts); `.error` models a raised exception. -/
structure INA219Dev where
  voltage : Except String ℚ
  current : Except String ℚ
  power : Except String ℚ

/-- `INA219Backend.get_metrics`: voltage, current, power (mW → W) are read in
order inside one `try`; the status is derived from the current sign with a
±10 mA noise threshold; an exception keeps the fields read so far. -/
def ina219Metrics (dev : INA219Dev) : Dict :=
  match dev.voltage with
  | .error _ => []
  | .ok v =>
    match dev.current with
    | .error _ => [("voltage", .num v)]
    | .ok c =>
      match dev.power with
      | .error _ => [("voltage", .num v), ("current", .num c)]
      | .ok p =>
        let status : String := if c > 10 then "Charging" else if c < -10 then "Discharging" else "Idle"
        [("voltage", .num v), ("current", .num c), ("power", .num (p / 1000)),
         ("status", .str status)]

/-! ## The monitor (`BatteryMonitor`) -/

/-- A `BatteryMonitor` at one `get_metrics` call: `backend = none` models
`self.backend is None`; otherwise the bound backend's read outcome at this
call (`.error` models `backend.get_metrics()` raising, which the monitor
catches). -/
structure Monitor where
  backend : Option (Except String Dict)
  backend_name : String

/-- `BatteryMonitor.get_metrics`. -/
def Monitor.get_metrics (m : Monitor) : Dict :=
  match m.backend with
  | none => [("available", .bool false), ("backend", .str m.backend_name)]
  | some outcome =>
    match outcome with
    | .ok metrics => dset (dset metrics "available" (.bool true)) "backend" (.str m.backend_name)
    | .error e =>
      [("available", .bool false), ("backend", .str m.backend_name), ("error", .str e)]

/-! ## Backend detection (`BatteryMonitor.__init__` / `_initialize_backend`)

Each `_try_*` probe touches the OS (sysfs listing, I2C bus); its outcome is
modelled as data: the power-supply probe either picks a battery device (its
directory name) and verifies a readable `capacity` file, or fails — every
exception on the way is swallowed and counts as failure; likewise the INA219
probe either configures the chip and survives its diagnostic voltage read, or
fails.  The generic I2C probe's body is a placeholder (`pass`) and returns
`False` unconditionally. -/

/-- Which backend a monitor ends up bound to. -/
inductive BoundBackend where
  | powerSupply (device_path : String)
  | ina219
  deriving Repr, DecidableEq

/-- A detection step, in the order `_initialize_backend` tries them. -/
inductive Step where
  | powerSupply
  | ina219
  | i2c
  deriving Repr, DecidableEq

/-- The monitor object during construction: `self.backend` /
`self.backend_name`, initialised to `None` / `"none"`. -/
structure DetectedMonitor where
  backend : Option BoundBackend
  backend_name : String
  deriving Repr, DecidableEq

/-- The probe outcomes the environment yields at construction time:
`powerSupply = some dev` iff `_try_power_supply_backend` finds battery device
`dev` with a readable capacity file, `ina219 = true` iff the INA219 import,
configuration and diagnostic read all succeed. -/
structure ProbeEnv where
  powerSupply : Option String
  ina219 : Bool
  deriving Repr, DecidableEq

/-- `_try_power_supply_backend`: on success binds a `PowerSupplyBackend` and
the name `power_supply(<device>)`; on any failure (no directory, no battery
device, unreadable capacity file, exception) returns `False` leaving the
monitor untouched. -/
def tryPowerSupplyBackend (env : ProbeEnv) (m : DetectedMonitor) : Bool × DetectedMonitor :=
  match env.powerSupply with
  | some dev =>
    (true, { m with backend := some (.powerSupply dev),
                    backend_name := "power_supply(" ++ dev ++ ")" })
  | none => (false, m)

/-- `_try_ina219_backend`: on success binds the INA219 backend under the name
`"ina219"`; `ImportError` and chip exceptions are swallowed into `False`. -/
def tryIna219Backend (env : ProbeEnv) (m : DetectedMonitor) : Bool × DetectedMonitor :=
  if env.ina219 then
    (true, { m with backend := some .ina219, backend_name := "ina219" })
  else (false, m)

/-- `_try_i2c_backend`: the body is a placeholder (`pass`) and the method
returns `False` unconditionally, regardless of the environment. -/
def tryI2cBackend (m : DetectedMonitor) : Bool × DetectedMonitor :=
  (false, m)

/-- `_initialize_backend`: try the three probes in order, returning as soon
as one binds.  Alongside the resulting monitor we record which probe steps
were attempted. -/
def initializeBackend (env : ProbeEnv) (m : DetectedMonitor) : DetectedMonitor × List Step :=
  let r₁ := tryPowerSupplyBackend env m
  if r₁.1 then (r₁.2, [.powerSupply])
  else
    let r₂ := tryIna219Backend env r₁.2
    if r₂.1 then (r₂.2, [.powerSupply, .ina219])
    else
      let r₃ := tryI2cBackend r₂.2
      if r₃.1 then (r₃.2, [.powerSupply, .ina219, .i2c])
      else (r₃.2, [.powerSupply, .ina219, .i2c])

/-- `BatteryMonitor.__init__`: start unbound with name `"none"`, then run
detection. -/
def newBatteryMonitor (env : ProbeEnv) : DetectedMonitor × List Step :=
  initializeBackend env ⟨none, "none"⟩

/-! ## Claims about the battery metrics provider -/

/-- Python `float(...)` restricted to the handful of sysfs literals the
concrete conversion examples read. -/
def floatTable : String → Option ℚ := fun s =>
  if s = "4200000" then some 4200000
  else if s = "-500000" then some (-500000)
  else if s = "253" then some 253
  else if s = "5000000" then some 5000000
  else if s = "200000" then some 200000
  else none

/-- C4, counterexample: with the INA219 backend bound and every chip read
raising an I2C exception, `get_metrics` returns
`{available: true, backend: "ina219"}` — a simulated I2C failure yields
`available = true` (the backend swallows the exception and hands back an
empty record), not the `available = false` the claim requires for every
backend failure. -/
theorem claim4_counterexample :
    Monitor.get_metrics
        ⟨some (.ok (ina219Metrics
          ⟨.error "I2C read failed", .error "I2C read failed", .error "I2C read failed"⟩)),
         "ina219"⟩
      = [("available", .bool true), ("backend", .str "ina219")] ∧
    dget (Monitor.get_metrics
        ⟨some (.ok (ina219Metrics
          ⟨.error "I2C read failed", .error "I2C read failed", .error "I2C read failed"⟩)),
         "ina219"⟩) "available" ≠ some (.bool false) :=
  ⟨rfl, by decide⟩

/-- C4 (amended): `get_metrics` never raises — it is a total function of the
monitor state.  With no backend bound it returns exactly
`{available: false, backend: <name>}`, with no error field; when the bound
backend's read raises, the record keeps the backend name and carries the
error message with `available = false`; when the backend's read returns
(including when every individual field was swallowed internally — missing
sysfs files, malformed numeric strings, I2C exceptions caught inside the
INA219 read) the record has `available = true`. -/
theorem claim4_get_metrics_soft (m : Monitor) :
    (m.backend = none →
      m.get_metrics = [("available", .bool false), ("backend", .str m.backend_name)]) ∧
    (m.backend = none → dget m.get_metrics "error" = none) ∧
    (∀ e, m.backend = some (.error e) →
      m.get_metrics = [("available", .bool false), ("backend", .str m.backend_name),
        ("error", .str e)]) ∧
    (∀ d, m.backend = some (.ok d) →
      dget m.get_metrics "available" = some (.bool true)) := by
  refine ⟨fun h => by simp [Monitor.get_metrics, h],
          fun h => by simp [Monitor.get_metrics, h, dget],
          fun e h => by simp [Monitor.get_metrics, h],
          fun d h => ?_⟩
  simp only [Monitor.get_metrics, h]
  rw [dget_dset_ne _ _ _ _ (by decide), dget_dset_self]

/-- C5, at the failing input: a bound power-supply backend whose device
directory has lost every attribute file gathers zero fields, yet
`get_metrics` reports `available = true` — the record is
`{available: true, backend: "power_supply(BAT0)"}` with none of the six
metric fields populated, violating the invariant the claim states (and the
repository's own test asserts). -/
theorem claim5_zero_fields_available :
    powerSupplyMetrics (fun _ => none) ⟨none, none, none, none, none, none⟩ = [] ∧
    Monitor.get_metrics
        ⟨some (.ok (powerSupplyMetrics (fun _ => none) ⟨none, none, none, none, none, none⟩)),
         "power_supply(BAT0)"⟩
      = [("available", .bool true), ("backend", .str "power_supply(BAT0)")] ∧
    (∀ k, k ∈ ["percentage", "voltage", "current", "power", "status", "temperature"] →
      dget (Monitor.get_metrics
        ⟨some (.ok (powerSupplyMetrics (fun _ => none) ⟨none, none, none, none, none, none⟩)),
         "power_supply(BAT0)"⟩) k = none) := by
  refine ⟨rfl, rfl, fun k hk => ?_⟩
  fin_cases hk <;> decide

/-- C6: detection is strictly ordered and first-match-wins over
{power-supply, INA219, generic-I2C}: the bound backend is the first probe
that succeeds and no later probe step is attempted once one binds; the
generic-I2C probe always reports absent; when nothing binds the monitor
keeps `backend_name = "none"` with no backend, and every `get_metrics` call
on an unbound monitor returns `available = false`. -/
theorem claim6_detection_order (env : ProbeEnv) :
    (∀ dev, env.powerSupply = some dev →
      (newBatteryMonitor env).1
          = ⟨some (.powerSupply dev), "power_supply(" ++ dev ++ ")"⟩ ∧
        (newBatteryMonitor env).2 = [.powerSupply]) ∧
    (env.powerSupply = none → env.ina219 = true →
      (newBatteryMonitor env).1 = ⟨some .ina219, "ina219"⟩ ∧
        (newBatteryMonitor env).2 = [.powerSupply, .ina219]) ∧
    (env.powerSupply = none → env.ina219 = false →
      (newBatteryMonitor env).1 = ⟨none, "none"⟩ ∧
        (newBatteryMonitor env).2 = [.powerSupply, .ina219, .i2c]) ∧
    (∀ m, (tryI2cBackend m).1 = false) ∧
    (∀ name, dget (Monitor.get_metrics ⟨none, name⟩) "available" = some (.bool false)) := by
  refine ⟨fun dev h => ?_, fun h1 h2 => ?_, fun h1 h2 => ?_,
          fun m => rfl, fun name => by simp [Monitor.get_metrics, dget]⟩
  · simp [newBatteryMonitor, initializeBackend, tryPowerSupplyBackend, h]
  · simp [newBatteryMonitor, initializeBackend, tryPowerSupplyBackend, tryIna219Backend,
      tryI2cBackend, h1, h2]
  · simp [newBatteryMonitor, initializeBackend, tryPowerSupplyBackend, tryIna219Backend,
      tryI2cBackend, h1, h2]

/-- C7: the power-supply unit conversions are exact — microvolts are divided
by 1 000 000, microamps by 1 000, microwatts by 1 000 000, tenths of a degree
by 10, and when `power_now` yields nothing while voltage and current are
present, power is derived as `voltageVolts * currentMilliamps / 1000`;
concretely, 4 200 000 µV ↦ 4.2 V, −500 000 µA ↦ −500 mA, 253 ↦ 25.3 °C, and
5.0 V with 200 mA and no `power_now` derives exactly 1.0 W. -/
theorem claim7_unit_conversions (parse : String → Option ℚ) (env : SysfsEnv) :
    (∀ q, readNum parse env.voltage_now = some q →
      dget (powerSupplyMetrics parse env) "voltage" = some (.num (q / 1000000))) ∧
    (∀ q, readNum parse env.current_now = some q →
      dget (powerSupplyMetrics parse env) "current" = some (.num (q / 1000))) ∧
    (∀ q, readNum parse env.power_now = some q →
      dget (powerSupplyMetrics parse env) "power" = some (.num (q / 1000000))) ∧
    (∀ q, readNum parse env.temp = some q →
      dget (powerSupplyMetrics parse env) "temperature" = some (.num (q / 10))) ∧
    (∀ v c, readNum parse env.power_now = none →
      readNum parse env.voltage_now = some v → readNum parse env.current_now = some c →
      dget (powerSupplyMetrics parse env) "power"
        = some (.num (v / 1000000 * (c / 1000) / 1000))) ∧
    dget (powerSupplyMetrics floatTable
        ⟨none, some "4200000", some "-500000", none, none, some "253"⟩) "voltage"
      = some (.num (21/5)) ∧
    dget (powerSupplyMetrics floatTable
        ⟨none, some "4200000", some "-500000", none, none, some "253"⟩) "current"
      = some (.num (-500)) ∧
    dget (powerSupplyMetrics floatTable
        ⟨none, some "4200000", some "-500000", none, none, some "253"⟩) "temperature"
      = some (.num (253/10)) ∧
    dget (powerSupplyMetrics floatTable
        ⟨none, some "5000000", some "200000", none, none, none⟩) "power"
      = some (.num 1) := by
  refine ⟨fun q hq => ?_, fun q hq => ?_, fun q hq => ?_, fun q hq => ?_,
          fun v c hp hv hc => ?_, ?_, ?_, ?_, ?_⟩
  · simp only [powerSupplyMetrics, hq]
    rcases readNum parse env.capacity with _|q1 <;>
    rcases readNum parse env.current_now with _|q3 <;>
    rcases readNum parse env.power_now with _|q4 <;>
    rcases env.status with _|s <;>
    rcases readNum parse env.temp with _|q6 <;>
    first
      | (by_cases hs : s = "" <;> simp_all [dget, dset, dmem])
      | simp_all [dget, dset, dmem]
  · simp only [powerSupplyMetrics, hq]
    rcases readNum parse env.capacity with _|q1 <;>
    rcases readNum parse env.voltage_now with _|q2 <;>
    rcases readNum parse env.power_now with _|q4 <;>
    rcases env.status with _|s <;>
    rcases readNum parse env.temp with _|q6 <;>
    first
      | (by_cases hs : s = "" <;> simp_all [dget, dset, dmem])
      | simp_all [dget, dset, dmem]
  · simp only [powerSupplyMetrics, hq]
    rcases readNum parse env.capacity with _|q1 <;>
    rcases readNum parse env.voltage_now with _|q2 <;>
    rcases readNum parse env.current_now with _|q3 <;>
    rcases env.status with _|s <;>
    rcases readNum parse env.temp with _|q6 <;>
    first
      | (by_cases hs : s = "" <;> simp_all [dget, dset, dmem])
      | simp_all [dget, dset, dmem]
  · simp only [powerSupplyMetrics, hq]
    rcases readNum parse env.capacity with _|q1 <;>
    rcases readNum parse env.voltage_now with _|q2 <;>
    rcases readNum parse env.current_now with _|q3 <;>
    rcases readNum parse env.power_now with _|q4 <;>
    rcases env.status with _|s <;>
    first
      | (by_cases hs : s = "" <;> simp_all [dget, dset, dmem])
      | simp_all [dget, dset, dmem]
  · simp only [powerSupplyMetrics, hp, hv, hc]
    rcases readNum parse env.capacity with _|q1 <;>
    rcases env.status with _|s <;>
    rcases readNum parse env.temp with _|q6 <;>
    first
      | (by_cases hs : s = "" <;> simp_all [dget, dset, dmem])
      | simp_all [dget, dset, dmem]
  · have h : dget (powerSupplyMetrics floatTable
        ⟨none, some "4200000", some "-500000", none, none, some "253"⟩) "voltage"
        = some (.num (4200000 / 1000000)) := rfl
    rw [h]; norm_num
  · have h : dget (powerSupplyMetrics floatTable
        ⟨none, some "4200000", some "-500000", none, none, some "253"⟩) "current"
        = some (.num (-500000 / 1000)) := rfl
    rw [h]; norm_num
  · have h : dget (powerSupplyMetrics floatTable
        ⟨none, some "4200000", some "-500000", none, none, some "253"⟩) "temperature"
        = some (.num (253 / 10)) := rfl
    rw [h]
  · have h : dget (powerSupplyMetrics floatTable
        ⟨none, some "5000000", some "200000", none, none, none⟩) "power"
        = some (.num (5000000 / 1000000 * (200000 / 1000) / 1000)) := rfl
    rw [h]; norm_num

/-- C10: on all three branches of `get_metrics` — no backend, successful
read, failed read — the returned record carries an `"available"` key holding
a boolean and a `"backend"` key holding the monitor backend name. -/
theorem claim10_record_shape (m : Monitor) :
    ∃ b : Bool, dget m.get_metrics "available" = some (.bool b) ∧
      dget m.get_metrics "backend" = some (.str m.backend_name) := by
  cases hm : m.backend with
  | none => exact ⟨false, by simp [Monitor.get_metrics, hm, dget]⟩
  | some outcome =>
    cases outcome with
    | error e => exact ⟨false, by simp [Monitor.get_metrics, hm, dget]⟩
    | ok d =>
      refine ⟨true, ?_, ?_⟩
      · simp only [Monitor.get_metrics, hm]
        rw [dget_dset_ne _ _ _ _ (by decide), dget_dset_self]
      · simp only [Monitor.get_metrics, hm]
        rw [dget_dset_self]

end InkyPi

namespace InkyPi.Uptime

/-! ## Uptime tracker (`src/utils/uptime_tracker.py`)

Instants are rationals (seconds since the epoch, UTC).  A timestamp stored in
the JSON document is either a well-formed ISO string — carried as the instant
it denotes — or some other string on which `datetime.fromisoformat` raises.
`int(...)` on a float is truncation toward zero. -/

/-- A timestamp field of the persisted document: `iso t` is an ISO-8601
string denoting instant `t`; `bad s` is a string `fromisoformat` rejects. -/
inductive TSVal where
  | iso (t : ℚ)
  | bad (s : String)
  deriving Repr, DecidableEq

/-- Python `int(x)` on a float/rational: truncation toward zero. -/
def truncInt (q : ℚ) : ℤ :=
  if 0 ≤ q then ⌊q⌋ else ⌈q⌉

/-- Python `//` on integers (floor division). -/
def floorDiv (a b : ℤ) : ℤ := Int.fdiv a b

/-- Python `%` on integers (floor remainder). -/
def floorMod (a b : ℤ) : ℤ := Int.fmod a b

/-- `seconds_to_hms`: format seconds as `"<h>h <m>m <s>s"` using Python's
floor division and remainder. -/
def seconds_to_hms (sec : ℤ) : String :=
  let h := floorDiv sec 3600
  let m := floorDiv (floorMod sec 3600) 60
  let s := floorMod sec 60
  toString h ++ "h " ++ toString m ++ "m " ++ toString s ++ "s"

/-- The in-memory uptime state dict: the three known fields plus whatever
extra fields the hand-editable JSON document carried (preserved verbatim by
load/save). -/
structure UState where
  full_charge_time : Option TSVal
  total_uptime_seconds : ℤ
  last_boot_time : TSVal
  extra : List (String × JVal)
  deriving Repr, DecidableEq

/-- The persisted `uptime.json` document as the filesystem holds it:
absent, syntactically invalid JSON (with the parse error `json.load` would
raise), or a parsed object whose three known fields may each be missing. -/
inductive Doc where
  | missing
  | corrupt (err : String)
  | valid (full_charge_time : Option (Option TSVal))
          (total_uptime_seconds : Option ℤ)
          (last_boot_time : Option TSVal)
          (extra : List (String × JVal))
  deriving Repr, DecidableEq

/-- `load_state` at instant `now`: a missing file yields the in-code default
state (nothing is written); a file `json.load` cannot parse raises; a parsed
document has each missing field backfilled by `setdefault`.  The second
component is the persisted document after the call — `load_state` itself
never writes, so it is the input document unchanged. -/
def load_state (now : ℚ) (doc : Doc) : Except String (UState × Doc) :=
  match doc with
  | .missing => .ok (⟨none, 0, .iso now, []⟩, .missing)
  | .corrupt err => .error err
  | .valid fc total boot extra =>
    .ok (⟨fc.getD none, total.getD 0, boot.getD (.iso now), extra⟩, doc)

/-- `save_state`: serialise the whole state dict back to the document. -/
def save_state (st : UState) : Doc :=
  .valid (some st.full_charge_time) (some st.total_uptime_seconds)
    (some st.last_boot_time) st.extra

/-- `update_uptime` body after `load_state`, at instant `now`: parse
`last_boot_time` (falling back to `now` if corrupted), add the truncated
delta to the total, format it, derive the time since full charge when that
marker parses, stamp `last_boot_time = now`.  Returns the two formatted
strings and the state that `save_state` persists. -/
def update_uptime (now : ℚ) (st : UState) : String × Option String × UState :=
  let boot_time : ℚ := match st.last_boot_time with
    | .iso t => t
    | .bad _ => now
  let uptime_this_cycle := truncInt (now - boot_time)
  let total := st.total_uptime_seconds + uptime_this_cycle
  let total_hms := seconds_to_hms total
  let since_full_charge : Option String := match st.full_charge_time with
    | some (.iso fc) => some (seconds_to_hms (truncInt (now - fc)))
    | some (.bad _) => none
    | none => none
  (total_hms, since_full_charge,
    { st with total_uptime_seconds := total, last_boot_time := .iso now })

/-- `set_full_charge_now` body after `load_state`, at instant `now`: set the
full-charge marker to `now`, persist, and return the new marker.  No other
field of the state is touched. -/
def set_full_charge_now (now : ℚ) (st : UState) : TSVal × UState :=
  let st' := { st with full_charge_time := some (.iso now) }
  (.iso now, st')

/-! ## WittyPi voltage log (`read_witty_vin`, `vin_to_percent`) -/

/-- `read_witty_vin`: the log is `none` when reading the file raises (the
outer `try` turns that into `None`); otherwise its stripped lines.  `search`
models `re.search` for the case-insensitive `Current Vin = <float>` pattern,
returning the captured group; `parseF` models `float(...)` on that group
(`none` = `ValueError`, which the same `try` also turns into `None`).  The
lines are scanned from the last one backward and the first match wins.
`scanVinLines` is the `for line in reversed(lines)` loop: on the first line
the regex matches it returns the parse of the captured group. -/
def scanVinLines (search : String → Option String) (parseF : String → Option ℚ) :
    List String → Option ℚ
  | [] => none
  | line :: rest =>
    match search line with
    | some g => parseF g
    | none => scanVinLines search parseF rest

/-- `read_witty_vin`, the function proper: unreadable log (`none`) yields
`None`; otherwise scan the reversed lines. -/
def read_witty_vin (log : Option (List String)) (search : String → Option String)
    (parseF : String → Option ℚ) : Option ℚ :=
  match log with
  | none => none
  | some lines => scanVinLines search parseF (lines.reverse)

/-- Python `round(x)` on a float/rational: round half to even, to an int. -/
def pyRound (q : ℚ) : ℤ :=
  let f := ⌊q⌋
  if q - f > 1/2 then f + 1
  else if q - f < 1/2 then f
  else if Even f then f else f + 1

/-- `vin_to_percent`: `None` passes through; otherwise linear interpolation
between `v_empty` and `v_full`, rounded, clamped into `[0, 100]`. -/
def vin_to_percent (v : Option ℚ) (v_empty v_full : ℚ) : Option ℤ :=
  match v with
  | none => none
  | some v =>
    let pct := (v - v_empty) / (v_full - v_empty) * 100
    some (max 0 (min 100 (pyRound pct)))

theorem pyRound_nonpos {q : ℚ} (h : q < 0) : pyRound q ≤ 0 := by
  have hle : (⌊q⌋ : ℚ) ≤ q := Int.floor_le q
  have hf : ⌊q⌋ ≤ -1 := by
    have : (⌊q⌋ : ℚ) < 0 := lt_of_le_of_lt hle h
    have : ⌊q⌋ < 0 := by exact_mod_cast this
    omega
  simp only [pyRound]
  split_ifs <;> omega

theorem pyRound_ge_100 {q : ℚ} (h : 100 < q) : 100 ≤ pyRound q := by
  have hf : 100 ≤ ⌊q⌋ := Int.le_floor.2 (by exact_mod_cast h.le)
  simp only [pyRound]
  split_ifs <;> omega

theorem scanVinLines_eq_none (search : String → Option String) (parseF : String → Option ℚ)
    (xs : List String) (h : ∀ l ∈ xs, search l = none) :
    scanVinLines search parseF xs = none := by
  induction xs with
  | nil => rfl
  | cons x rest ih =>
    have hx := h x (List.mem_cons_self x rest)
    simp only [scanVinLines, hx]
    exact ih fun l hl => h l (List.mem_cons_of_mem x hl)

theorem scanVinLines_append_of_none (search : String → Option String)
    (parseF : String → Option ℚ) (xs ys : List String) (h : ∀ l ∈ xs, search l = none) :
    scanVinLines search parseF (xs ++ ys) = scanVinLines search parseF ys := by
  induction xs with
  | nil => rfl
  | cons x rest ih =>
    have hx := h x (List.mem_cons_self x rest)
    simp only [List.cons_append, scanVinLines, hx]
    exact ih fun l hl => h l (List.mem_cons_of_mem x hl)

/-! ## Claims about the uptime tracker -/

/-- C1, counterexample: `set_full_charge_now` called at instant 7 on a state
with 5 accumulated seconds and last-update mark 0 leaves
`total_uptime_seconds` at 5 (not 0) and `last_boot_time` at 0 (not 7),
refuting the claim that the call resets the total and stamps the update
time. -/
theorem claim1_counterexample :
    (set_full_charge_now 7 ⟨none, 5, .iso 0, []⟩).2.total_uptime_seconds = 5 ∧
    (set_full_charge_now 7 ⟨none, 5, .iso 0, []⟩).2.last_boot_time = .iso 0 ∧
    (set_full_charge_now 7 ⟨none, 5, .iso 0, []⟩).2.total_uptime_seconds ≠ 0 ∧
    (set_full_charge_now 7 ⟨none, 5, .iso 0, []⟩).2.last_boot_time ≠ .iso 7 := by
  refine ⟨rfl, rfl, by decide, by decide⟩

/-- C1 (amended): `set_full_charge_now` sets `full_charge_time` to the call
time, persists the state, and returns the new timestamp — but it does not
touch `total_uptime_seconds`, `last_boot_time` or any other field. -/
theorem claim1_set_full_charge (now : ℚ) (st : UState) :
    (set_full_charge_now now st).1 = .iso now ∧
    (set_full_charge_now now st).2.full_charge_time = some (.iso now) ∧
    (set_full_charge_now now st).2.total_uptime_seconds = st.total_uptime_seconds ∧
    (set_full_charge_now now st).2.last_boot_time = st.last_boot_time ∧
    (set_full_charge_now now st).2.extra = st.extra ∧
    save_state (set_full_charge_now now st).2 =
      .valid (some (some (.iso now))) (some st.total_uptime_seconds)
        (some st.last_boot_time) st.extra :=
  ⟨rfl, rfl, rfl, rfl, rfl, rfl⟩

/-- C2, counterexample: with the persisted update mark at instant 100 and 50
accumulated seconds, an accrual call at instant 90 (wall clock moved 10 s
backward) stores total 40 < 50: the delta is not clamped to 0 and the total
decreases. -/
theorem claim2_counterexample :
    (update_uptime 90 ⟨none, 50, .iso 100, []⟩).2.2.total_uptime_seconds = 40 ∧
    (update_uptime 90 ⟨none, 50, .iso 100, []⟩).2.2.total_uptime_seconds <
      (⟨none, 50, .iso 100, []⟩ : UState).total_uptime_seconds := by
  constructor <;> simp [update_uptime, truncInt]

/-- C2 (amended): the accrual delta is the toward-zero truncation of
`now − last_boot_time`, added without any clamping; in particular, whenever
the wall clock has moved backward by a full second or more,
`total_uptime_seconds` strictly decreases. -/
theorem claim2_no_clamp (st : UState) (b now : ℚ) (h : st.last_boot_time = .iso b) :
    (update_uptime now st).2.2.total_uptime_seconds
      = st.total_uptime_seconds + truncInt (now - b) ∧
    (now ≤ b - 1 →
      (update_uptime now st).2.2.total_uptime_seconds < st.total_uptime_seconds) := by
  refine ⟨by simp [update_uptime, h], fun hle => ?_⟩
  have h1 : (now - b : ℚ) ≤ -1 := by linarith
  have h2 : ⌈(now - b : ℚ)⌉ ≤ -1 := by
    have := Int.ceil_le_ceil (α := ℚ) h1
    simpa using this
  have h3 : truncInt (now - b) < 0 := by
    rw [truncInt, if_neg (by linarith)]
    omega
  simp only [update_uptime, h]
  omega

/-- C2, witness for the amended theorem at a concrete input. -/
theorem claim2_no_clamp_witness :
    (update_uptime 90 ⟨none, 50, .iso 100, []⟩).2.2.total_uptime_seconds
      = 50 + truncInt (90 - 100) ∧
    ((90 : ℚ) ≤ 100 - 1 →
      (update_uptime 90 ⟨none, 50, .iso 100, []⟩).2.2.total_uptime_seconds < 50) :=
  claim2_no_clamp ⟨none, 50, .iso 100, []⟩ 100 90 rfl

/-- C3, counterexample: a document `json.load` cannot parse makes
`load_state` raise the parse error instead of returning the default state,
and a missing document yields the default state without persisting it (the
stored document stays `missing` rather than becoming the saved default). -/
theorem claim3_counterexample :
    load_state 0 (.corrupt "Expecting value") = .error "Expecting value" ∧
    load_state 5 .missing = .ok (⟨none, 0, .iso 5, []⟩, .missing) ∧
    Doc.missing ≠ save_state ⟨none, 0, .iso 5, []⟩ := by
  refine ⟨rfl, rfl, by simp [save_state]⟩

/-- C3 (amended): a missing document yields the default state
(`full_charge_time = null`, `total_uptime_seconds = 0`,
`last_boot_time = now`) without persisting anything; a document that fails
structural parsing makes `load_state` raise the parse error to the caller;
individually missing fields of a valid document are backfilled with those
same defaults. -/
theorem claim3_load_state (now : ℚ) (err : String) (extra : List (String × JVal)) :
    load_state now .missing = .ok (⟨none, 0, .iso now, []⟩, .missing) ∧
    load_state now (.corrupt err) = .error err ∧
    load_state now (.valid none none none extra)
      = .ok (⟨none, 0, .iso now, extra⟩, .valid none none none extra) :=
  ⟨rfl, rfl, rfl⟩

/-- C8: two consecutive accrual calls separated by a 10-second clock advance
add exactly 10 to `total_uptime_seconds`; neither call mutates
`full_charge_time`; the extra fields of the persisted document are untouched;
the second call stamps `last_boot_time` with its own call time. -/
theorem claim8_frame (st : UState) (t : ℚ) :
    (update_uptime (t + 10) (update_uptime t st).2.2).2.2.total_uptime_seconds
      = (update_uptime t st).2.2.total_uptime_seconds + 10 ∧
    (update_uptime t st).2.2.full_charge_time = st.full_charge_time ∧
    (update_uptime (t + 10) (update_uptime t st).2.2).2.2.full_charge_time
      = st.full_charge_time ∧
    (update_uptime t st).2.2.extra = st.extra ∧
    (update_uptime (t + 10) (update_uptime t st).2.2).2.2.extra = st.extra ∧
    (update_uptime (t + 10) (update_uptime t st).2.2).2.2.last_boot_time = .iso (t + 10) := by
  have h10 : truncInt (10 : ℚ) = 10 := by norm_num [truncInt]
  refine ⟨?_, rfl, rfl, rfl, rfl, rfl⟩
  simp [update_uptime, h10]

/-- C9: `vin_to_percent` interpolates linearly between the empty and full
reference voltages and clamps to `[0, 100]` — 3.75 V against 3.3 V/4.2 V
gives exactly 50, anything below the empty reference gives 0, anything above
the full reference gives 100; `read_witty_vin` yields `None` when the log is
unreadable or no line matches the Vin pattern, and otherwise uses only the
last matching line. -/
theorem claim9_vin_percent (search : String → Option String) (parseF : String → Option ℚ) :
    vin_to_percent (some (15/4)) (33/10) (21/5) = some 50 ∧
    (∀ v ve vf : ℚ, ve < vf → v < ve → vin_to_percent (some v) ve vf = some 0) ∧
    (∀ v ve vf : ℚ, ve < vf → vf < v → vin_to_percent (some v) ve vf = some 100) ∧
    read_witty_vin none search parseF = none ∧
    (∀ lines, (∀ l ∈ lines, search l = none) →
      read_witty_vin (some lines) search parseF = none) ∧
    (∀ pre line post g, search line = some g → (∀ l ∈ post, search l = none) →
      read_witty_vin (some (pre ++ line :: post)) search parseF = parseF g) := by
  refine ⟨?_, ?_, ?_, rfl, ?_, ?_⟩
  · simp [vin_to_percent, pyRound]; norm_num
  · intro v ve vf h1 h2
    have hp : (v - ve) / (vf - ve) * 100 < 0 := by
      have := div_neg_of_neg_of_pos (sub_neg.2 h2) (sub_pos.2 h1)
      nlinarith
    have hr := pyRound_nonpos hp
    simp only [vin_to_percent, Option.some.injEq]
    omega
  · intro v ve vf h1 h2
    have hp : 100 < (v - ve) / (vf - ve) * 100 := by
      have h3 : (1 : ℚ) < (v - ve) / (vf - ve) := by
        rw [lt_div_iff₀ (sub_pos.2 h1)]
        linarith
      nlinarith
    have hr := pyRound_ge_100 hp
    simp only [vin_to_percent, Option.some.injEq]
    omega
  · intro lines h
    simp only [read_witty_vin]
    exact scanVinLines_eq_none search parseF lines.reverse
      fun l hl => h l (List.mem_reverse.1 hl)
  · intro pre line post g hline hpost
    simp only [read_witty_vin, List.reverse_append, List.reverse_cons]
    rw [List.append_assoc,
      scanVinLines_append_of_none search parseF post.reverse _
        fun l hl => hpost l (List.mem_reverse.1 hl)]
    simp [scanVinLines, hline]

end InkyPi.Uptime
